import Mathlib

/-!
Verification of the asynchronous job polling loops of the Leonardo CLI
(src/leonardo_cli.py: wait_for_generation, wait_for_motion_generation,
wait_for_variation) against the AsyncJobPoller specification.

Modelling decisions, faithful to the Python source:

- A raw status record (the JSON body returned by the status endpoint) is
  modelled by Record: an optional status field and an optional error field,
  mirroring generation.get("status", "") and generation.get("error",
  "Unknown error").
- The status-fetch capability (self.get_generation and friends, one network
  round-trip that may raise) is modelled by a function from the job handle
  and the call index to a FetchResult: ok with a record, or err with the
  exception text.  The call index makes the fetch behaviour an arbitrary
  sequence, as the spec's properties quantify over it.
- Virtual time: a fetch call itself takes zero seconds, and the two sleeps
  (time.sleep(3) on a non-terminal status, time.sleep(5) in the except
  handler) advance the elapsed clock by 3 and 5.  The loop guard
  time.time() - start_time < timeout becomes elapsed < timeout.
- Every progress.update/add_task call is recorded in an event trace: the
  updates embedding the elapsed time become Event.progress with the elapsed
  seconds and the label, all others become Event.note with the exact
  description string of the source (colour tags included).
- A PollResult packages what a run observes: the outcome (the returned
  record, or the timeout exception that escapes the function), the event
  trace, the elapsed clock at the point of return, and the number of
  status-fetch calls performed.
- Outcome deliberately has no constructor for a fetch error or for a
  remote-job failure: in the source, the except clause inside the while
  loop catches every exception raised in the try block - including the
  Exception("Generation failed: ...") that the FAILED branch itself raises
  three lines above - so only a returned record or the final timeout
  exception can ever escape the function.
-/

structure Record where
  status : Option String
  error : Option String
deriving Repr, DecidableEq

inductive FetchResult where
  | ok (r : Record)
  | err (msg : String)
deriving Repr, DecidableEq

inductive Event where
  | note (s : String)
  | progress (elapsed : Nat) (s : String)
deriving Repr, DecidableEq

inductive Outcome where
  | success (r : Record)
  | timedOut (msg : String)
deriving Repr, DecidableEq

structure PollResult where
  outcome : Outcome
  trace : List Event
  finalElapsed : Nat
  calls : Nat
deriving Repr, DecidableEq

/-- Bookkeeping for one loop iteration that performed a status-fetch call and
continued: its progress events are emitted before the rest of the run. -/
def afterFetch (es : List Event) (r : PollResult) : PollResult :=
  { r with trace := es ++ r.trace, calls := r.calls + 1 }

/-- Events emitted before the loop starts (the progress.add_task call). -/
def prependEvents (es : List Event) (r : PollResult) : PollResult :=
  { r with trace := es ++ r.trace }

/-- The while loop of wait_for_generation (src/leonardo_cli.py lines 186-209).
Each iteration: check the wall-clock guard; call get_generation; on COMPLETE
return the record; on FAILED raise Exception("Generation failed: ...") which
the except clause of the same try statement catches, reports as
"Error checking status" and absorbs with a 5 second sleep; on any other
status report progress and sleep 3 seconds; on a fetch error report it and
sleep 5 seconds; when the guard fails raise the timeout exception. -/
def wait_for_generationAux (fetch : String → Nat → FetchResult) (generation_id : String)
    (timeout : Int) (elapsed n : Nat) : PollResult :=
  if _h : (elapsed : Int) < timeout then
    match fetch generation_id n with
    | .ok r =>
      if r.status.getD "" = "COMPLETE" then
        { outcome := .success r, trace := [.note "[green]Generation complete!"],
          finalElapsed := elapsed, calls := 1 }
      else if r.status.getD "" = "FAILED" then
        afterFetch [.note "[red]Generation failed!",
            .note ("[red]Error checking status: Generation failed: " ++ r.error.getD "Unknown error")]
          (wait_for_generationAux fetch generation_id timeout (elapsed + 5) (n + 1))
      else
        afterFetch [.progress elapsed "[yellow]Waiting for generation..."]
          (wait_for_generationAux fetch generation_id timeout (elapsed + 3) (n + 1))
    | .err e =>
      afterFetch [.note ("[red]Error checking status: " ++ e)]
        (wait_for_generationAux fetch generation_id timeout (elapsed + 5) (n + 1))
  else
    { outcome := .timedOut ("Generation timed out after " ++ toString timeout ++ " seconds"),
      trace := [.note "[red]Generation timed out!"], finalElapsed := elapsed, calls := 0 }
termination_by (timeout - (elapsed : Int)).toNat
decreasing_by all_goals omega

/-- wait_for_generation (src/leonardo_cli.py lines 175-209): start the
progress display, run the polling loop from elapsed time 0. -/
def wait_for_generation (fetch : String → Nat → FetchResult) (generation_id : String)
    (timeout : Int) : PollResult :=
  prependEvents [.note "[yellow]Waiting for generation..."]
    (wait_for_generationAux fetch generation_id timeout 0 0)

/-- Default value of the timeout parameter of wait_for_generation. -/
def generation_default_timeout : Int := 120

/-- The while loop of wait_for_motion_generation (src/leonardo_cli.py lines
297-322); identical control flow to wait_for_generationAux, with
get_motion_generation as the fetch and the video-specific label strings. -/
def wait_for_motion_generationAux (fetch : String → Nat → FetchResult) (generation_id : String)
    (timeout : Int) (elapsed n : Nat) : PollResult :=
  if _h : (elapsed : Int) < timeout then
    match fetch generation_id n with
    | .ok r =>
      if r.status.getD "" = "COMPLETE" then
        { outcome := .success r, trace := [.note "[green]Video generation complete!"],
          finalElapsed := elapsed, calls := 1 }
      else if r.status.getD "" = "FAILED" then
        afterFetch [.note "[red]Video generation failed!",
            .note ("[red]Error checking status: Generation failed: " ++ r.error.getD "Unknown error")]
          (wait_for_motion_generationAux fetch generation_id timeout (elapsed + 5) (n + 1))
      else
        afterFetch [.progress elapsed "[yellow]Waiting for video generation..."]
          (wait_for_motion_generationAux fetch generation_id timeout (elapsed + 3) (n + 1))
    | .err e =>
      afterFetch [.note ("[red]Error checking status: " ++ e)]
        (wait_for_motion_generationAux fetch generation_id timeout (elapsed + 5) (n + 1))
  else
    { outcome := .timedOut ("Motion generation timed out after " ++ toString timeout ++ " seconds"),
      trace := [.note "[red]Video generation timed out!"], finalElapsed := elapsed, calls := 0 }
termination_by (timeout - (elapsed : Int)).toNat
decreasing_by all_goals omega

/-- wait_for_motion_generation (src/leonardo_cli.py lines 288-322). -/
def wait_for_motion_generation (fetch : String → Nat → FetchResult) (generation_id : String)
    (timeout : Int) : PollResult :=
  prependEvents [.note "[yellow]Waiting for video generation..."]
    (wait_for_motion_generationAux fetch generation_id timeout 0 0)

/-- Default value of the timeout parameter of wait_for_motion_generation. -/
def motion_default_timeout : Int := 300

/-- Python str.capitalize(): first character upper-cased, the rest
lower-cased; used by wait_for_variation to build its labels. -/
def pyCapitalize (s : String) : String :=
  match s.data with
  | [] => ""
  | c :: cs => String.mk (c.toUpper :: cs.map Char.toLower)

/-- The while loop of wait_for_variation (src/leonardo_cli.py lines 356-381);
identical control flow to wait_for_generationAux, with get_variation as the
fetch and labels built from the variation type. -/
def wait_for_variationAux (fetch : String → String → Nat → FetchResult) (variation_id : String)
    (variation_type : String) (timeout : Int) (elapsed n : Nat) : PollResult :=
  if _h : (elapsed : Int) < timeout then
    match fetch variation_id variation_type n with
    | .ok r =>
      if r.status.getD "" = "COMPLETE" then
        { outcome := .success r,
          trace := [.note ("[green]" ++ pyCapitalize variation_type ++ " complete!")],
          finalElapsed := elapsed, calls := 1 }
      else if r.status.getD "" = "FAILED" then
        afterFetch [.note ("[red]" ++ pyCapitalize variation_type ++ " failed!"),
            .note ("[red]Error checking status: Variation failed: " ++ r.error.getD "Unknown error")]
          (wait_for_variationAux fetch variation_id variation_type timeout (elapsed + 5) (n + 1))
      else
        afterFetch [.progress elapsed ("[yellow]Waiting for " ++ variation_type ++ " to complete...")]
          (wait_for_variationAux fetch variation_id variation_type timeout (elapsed + 3) (n + 1))
    | .err e =>
      afterFetch [.note ("[red]Error checking status: " ++ e)]
        (wait_for_variationAux fetch variation_id variation_type timeout (elapsed + 5) (n + 1))
  else
    { outcome := .timedOut ("Variation timed out after " ++ toString timeout ++ " seconds"),
      trace := [.note ("[red]" ++ pyCapitalize variation_type ++ " timed out!")],
      finalElapsed := elapsed, calls := 0 }
termination_by (timeout - (elapsed : Int)).toNat
decreasing_by all_goals omega

/-- wait_for_variation (src/leonardo_cli.py lines 347-381). -/
def wait_for_variation (fetch : String → String → Nat → FetchResult) (variation_id : String)
    (variation_type : String) (timeout : Int) : PollResult :=
  prependEvents [.note ("[yellow]Waiting for " ++ variation_type ++ " to complete...")]
    (wait_for_variationAux fetch variation_id variation_type timeout 0 0)

/-- Default value of the timeout parameter of wait_for_variation. -/
def variation_default_timeout : Int := 120

/-- The elapsed-seconds value carried by a progress-sink event, when the
event is one of the updates that embed the elapsed time. -/
def Event.elapsedOf : Event → Option Nat
  | .progress e _ => some e
  | .note _ => none

/-- The sequence of elapsed-seconds values reported to the progress sink
during a run, in emission order. -/
def progressElapseds (tr : List Event) : List Nat :=
  tr.filterMap Event.elapsedOf

/-- Two outcomes agree up to label text: same record on success, both the
timeout exception otherwise. -/
def Outcome.agrees : Outcome → Outcome → Bool
  | .success r, .success r' => r == r'
  | .timedOut _, .timedOut _ => true
  | _, _ => false

/-- Two poll runs agree behaviourally: outcomes agree, and they performed
the same number of status-fetch calls and consumed the same virtual time. -/
def resultsAgree (a b : PollResult) : Prop :=
  a.outcome.agrees b.outcome = true ∧ a.calls = b.calls ∧ a.finalElapsed = b.finalElapsed

/-- A status record whose status field says the job is still pending. -/
def pendingRecord : Record := ⟨some "PENDING", none⟩

/-- A status record whose status field says the job completed. -/
def completeRecord : Record := ⟨some "COMPLETE", none⟩

/-- A status record whose status field says the job failed, with an error
message. -/
def failedRecord : Record := ⟨some "FAILED", some "boom"⟩

/-- A fetch that always reports the job pending. -/
def pendingFetch : String → Nat → FetchResult := fun _ _ => .ok pendingRecord

/-- A fetch that always reports the job complete. -/
def completeFetch : String → Nat → FetchResult := fun _ _ => .ok completeRecord

/-- A fetch that always reports the job failed. -/
def failedFetch : String → Nat → FetchResult := fun _ _ => .ok failedRecord

/-- A fetch that always raises a connection error. -/
def erroringFetch : String → Nat → FetchResult := fun _ _ => .err "connection reset"

/-- A fetch that raises a connection error on the first call and reports the
job complete from the second call on. -/
def errThenCompleteFetch : String → Nat → FetchResult :=
  fun _ n => if n = 0 then .err "connection reset" else .ok completeRecord

/-- Whenever the timeout is positive, the polling loop performs at least one
status-fetch call, whatever the fetch returns. -/
theorem calls_pos_of_timeout_pos (fetch : String → Nat → FetchResult) (gid : String)
    (t : Int) (ht : 0 < t) : 1 ≤ (wait_for_generation fetch gid t).calls := by
  rw [wait_for_generation, wait_for_generationAux]
  rcases h : fetch gid 0 with r | e
  · by_cases h1 : r.status.getD "" = "COMPLETE"
    · simp [prependEvents, ht, h, h1]
    · by_cases h2 : r.status.getD "" = "FAILED"
      · simp [prependEvents, afterFetch, ht, h, h1, h2]
      · simp [prependEvents, afterFetch, ht, h, h1, h2]
  · simp [prependEvents, afterFetch, ht, h]

/-- C1: a record with status FAILED is not surfaced immediately.  Concrete
run (timeout 7, every fetch returns status FAILED with error "boom"): the
raise in the FAILED branch is caught by the except clause of its own try
statement, reported to the sink as an error-checking problem, absorbed with
a 5 second sleep, and the loop keeps fetching until the budget is exhausted:
two fetch calls, 10 virtual seconds, final outcome the Timeout exception. -/
theorem C1_failed_status_swallowed :
    wait_for_generation failedFetch "job-1" 7 =
      { outcome := .timedOut "Generation timed out after 7 seconds",
        trace := [.note "[yellow]Waiting for generation...",
          .note "[red]Generation failed!",
          .note "[red]Error checking status: Generation failed: boom",
          .note "[red]Generation failed!",
          .note "[red]Error checking status: Generation failed: boom",
          .note "[red]Generation timed out!"],
        finalElapsed := 10, calls := 2 } := by
  simp [wait_for_generation, wait_for_generationAux, prependEvents, afterFetch,
    failedFetch, failedRecord]
  rfl

/-- C5 counterexample: with an empty job handle and a positive timeout the
poller performs a status-fetch (network) call and returns its result; it does
not fail fast, and no InvalidInput outcome exists. -/
theorem C5_counterexample :
    (wait_for_generation completeFetch "" 1).calls = 1 ∧
      (wait_for_generation completeFetch "" 1).outcome = .success completeRecord := by
  constructor <;>
    simp [wait_for_generation, wait_for_generationAux, prependEvents, afterFetch,
      completeFetch, completeRecord]

/-- C5 (amended): the poller performs no validation of the job handle; an
empty handle is passed unchanged to the status fetch, which is called at
least once whenever the timeout is positive. -/
theorem C5_empty_handle_is_fetched (fetch : String → Nat → FetchResult) (t : Int)
    (ht : 0 < t) : 1 ≤ (wait_for_generation fetch "" t).calls :=
  calls_pos_of_timeout_pos fetch "" t ht

/-- C5 witness at a concrete input. -/
theorem C5_witness : 1 ≤ (wait_for_generation pendingFetch "" 1).calls :=
  C5_empty_handle_is_fetched pendingFetch 1 (by norm_num)

/-- C6: if the first status fetch returns a record whose status is COMPLETE,
the poller returns Success with that record, after zero virtual seconds
(no sleep) and exactly one fetch call (no further polling). -/
theorem C6_immediate_success (fetch : String → Nat → FetchResult) (gid : String)
    (t : Int) (r : Record) (ht : 0 < t) (h0 : fetch gid 0 = .ok r)
    (hc : r.status.getD "" = "COMPLETE") :
    wait_for_generation fetch gid t =
      { outcome := .success r,
        trace := [.note "[yellow]Waiting for generation...",
          .note "[green]Generation complete!"],
        finalElapsed := 0, calls := 1 } := by
  rw [wait_for_generation, wait_for_generationAux]
  simp [prependEvents, ht, h0, hc]

/-- C6 witness at a concrete input. -/
theorem C6_witness :
    wait_for_generation completeFetch "g" 120 =
      { outcome := .success completeRecord,
        trace := [.note "[yellow]Waiting for generation...",
          .note "[green]Generation complete!"],
        finalElapsed := 0, calls := 1 } :=
  C6_immediate_success completeFetch "g" 120 completeRecord (by norm_num) rfl rfl

/-- C7: on any status other than COMPLETE and FAILED - an unrecognized
string, or an absent or empty status field, all of which make
record.get-status-with-default differ from both terminal tags - the loop
treats the job as still running: it reports the elapsed seconds and the
waiting label to the progress sink, sleeps the fixed 3 second poll interval,
and continues with the next fetch call. -/
theorem C7_nonterminal_keeps_polling (fetch : String → Nat → FetchResult) (gid : String)
    (t : Int) (elapsed n : Nat) (r : Record) (hlt : (elapsed : Int) < t)
    (hok : fetch gid n = .ok r) (hc : r.status.getD "" ≠ "COMPLETE")
    (hf : r.status.getD "" ≠ "FAILED") :
    wait_for_generationAux fetch gid t elapsed n =
      afterFetch [.progress elapsed "[yellow]Waiting for generation..."]
        (wait_for_generationAux fetch gid t (elapsed + 3) (n + 1)) := by
  conv_lhs => rw [wait_for_generationAux]
  simp [hlt, hok, hc, hf]

/-- C7 witness at a concrete input. -/
theorem C7_witness :
    wait_for_generationAux pendingFetch "g" 9 0 0 =
      afterFetch [.progress 0 "[yellow]Waiting for generation..."]
        (wait_for_generationAux pendingFetch "g" 9 3 1) :=
  C7_nonterminal_keeps_polling pendingFetch "g" 9 0 0 pendingRecord (by norm_num) rfl
    (by decide) (by decide)

/-- C10: for a timeout that is zero or negative the loop guard fails before
the first iteration, so the poller performs zero fetch calls and raises the
timeout exception at once, whatever the fetch would have returned; and the
loop body runs at least once exactly when the timeout is positive. -/
theorem C10_nonpositive_timeout (fetch : String → Nat → FetchResult) (gid : String)
    (t : Int) :
    (t ≤ 0 → wait_for_generation fetch gid t =
      { outcome := .timedOut ("Generation timed out after " ++ toString t ++ " seconds"),
        trace := [.note "[yellow]Waiting for generation...",
          .note "[red]Generation timed out!"],
        finalElapsed := 0, calls := 0 }) ∧
    (0 < t ↔ 1 ≤ (wait_for_generation fetch gid t).calls) := by
  have hneg : t ≤ 0 → wait_for_generation fetch gid t =
      { outcome := .timedOut ("Generation timed out after " ++ toString t ++ " seconds"),
        trace := [.note "[yellow]Waiting for generation...",
          .note "[red]Generation timed out!"],
        finalElapsed := 0, calls := 0 } := by
    intro hle
    rw [wait_for_generation, wait_for_generationAux]
    have : ¬ ((0 : Int) < t) := by omega
    simp [prependEvents, this]
  refine ⟨hneg, ⟨fun ht => calls_pos_of_timeout_pos fetch gid t ht, fun hc => ?_⟩⟩
  by_contra hnot
  rw [hneg (by omega)] at hc
  simp at hc

/-- C10 witness: timeout 0 with a fetch that would report the job already
complete still yields the timeout exception with zero fetch calls. -/
theorem C10_witness :
    wait_for_generation completeFetch "g" 0 =
      { outcome := .timedOut "Generation timed out after 0 seconds",
        trace := [.note "[yellow]Waiting for generation...",
          .note "[red]Generation timed out!"],
        finalElapsed := 0, calls := 0 } :=
  ((C10_nonpositive_timeout completeFetch "g" 0).1 (by norm_num)).trans (by rfl)

/-- The loop returns either at its entry clock value (the guard failed at
once) or strictly before timeout plus the 5 second error backoff: the last
iteration to run started strictly inside the budget and slept at most 5
seconds. -/
theorem finalElapsed_of_generationAux (fetch : String → Nat → FetchResult) (gid : String)
    (t : Int) : ∀ elapsed n : Nat,
    (wait_for_generationAux fetch gid t elapsed n).finalElapsed = elapsed ∨
      (((wait_for_generationAux fetch gid t elapsed n).finalElapsed : Int) < t + 5) := by
  intro elapsed n
  induction elapsed, n using wait_for_generationAux.induct fetch gid t with
  | case1 elapsed n hlt r hok hc =>
    rw [wait_for_generationAux]
    simp [hlt, hok, hc]
  | case2 elapsed n hlt r hok hc hf ih =>
    rw [wait_for_generationAux]
    simp [hlt, hok, hc, hf, afterFetch]
    rcases ih with h | h
    · right; rw [h]; push_cast; omega
    · right; exact h
  | case3 elapsed n hlt r hok hc hf ih =>
    rw [wait_for_generationAux]
    simp [hlt, hok, hc, hf, afterFetch]
    rcases ih with h | h
    · right; rw [h]; push_cast; omega
    · right; exact h
  | case4 elapsed n hlt e he ih =>
    rw [wait_for_generationAux]
    simp [hlt, he, afterFetch]
    rcases ih with h | h
    · right; rw [h]; push_cast; omega
    · right; exact h
  | case5 elapsed n hlt =>
    rw [wait_for_generationAux]
    simp [hlt]

/-- C2: whatever the status fetch does (always pending, always erroring,
FAILED forever, or any mix), the poller - a total function, so it always
terminates - returns with its virtual clock strictly below the timeout plus
one 5 second error backoff. -/
theorem C2_bounded_termination (fetch : String → Nat → FetchResult) (gid : String)
    (t : Int) :
    (((wait_for_generation fetch gid t).finalElapsed : Int) < max t 0 + 5) := by
  have h := finalElapsed_of_generationAux fetch gid t 0 0
  rw [wait_for_generation]
  simp only [prependEvents] at h ⊢
  rcases h with h | h
  · rw [h]; positivity
  · calc ((wait_for_generationAux fetch gid t 0 0).finalElapsed : Int) < t + 5 := h
      _ ≤ max t 0 + 5 := by omega

/-- If no fetched record ever carries status COMPLETE, the loop can never
return Success, so it ends with the timeout exception. -/
theorem generationAux_times_out (fetch : String → Nat → FetchResult) (gid : String)
    (t : Int) (hnc : ∀ n r, fetch gid n = .ok r → r.status.getD "" ≠ "COMPLETE") :
    ∀ elapsed n : Nat,
    (wait_for_generationAux fetch gid t elapsed n).outcome =
      .timedOut ("Generation timed out after " ++ toString t ++ " seconds") := by
  intro elapsed n
  induction elapsed, n using wait_for_generationAux.induct fetch gid t with
  | case1 elapsed n hlt r hok hc => exact absurd hc (hnc n r hok)
  | case2 elapsed n hlt r hok hc hf ih =>
    rw [wait_for_generationAux]
    simpa [hlt, hok, hc, hf, afterFetch] using ih
  | case3 elapsed n hlt r hok hc hf ih =>
    rw [wait_for_generationAux]
    simpa [hlt, hok, hc, hf, afterFetch] using ih
  | case4 elapsed n hlt e he ih =>
    rw [wait_for_generationAux]
    simpa [hlt, he, afterFetch] using ih
  | case5 elapsed n hlt =>
    rw [wait_for_generationAux]
    simp [hlt]

/-- C4 (amended): when the budget is exhausted while the job never reported
COMPLETE - in particular when every fetch erred transiently - the final
outcome is the timeout exception, not the underlying fetch error, with
detail text "Generation timed out after N seconds" (the Outcome type has no
fetch-error case at all: the except clause absorbs every error raised inside
the loop). -/
theorem C4_timeout_is_final_outcome (fetch : String → Nat → FetchResult) (gid : String)
    (t : Int) (hnc : ∀ n r, fetch gid n = .ok r → r.status.getD "" ≠ "COMPLETE") :
    (wait_for_generation fetch gid t).outcome =
      .timedOut ("Generation timed out after " ++ toString t ++ " seconds") := by
  rw [wait_for_generation]
  simpa [prependEvents] using generationAux_times_out fetch gid t hnc 0 0

/-- C4 witness: a fetch that always raises a connection error, budget 10
seconds: the final outcome is the Timeout exception, not the fetch error. -/
theorem C4_witness :
    (wait_for_generation erroringFetch "g" 10).outcome =
      .timedOut "Generation timed out after 10 seconds" :=
  (C4_timeout_is_final_outcome erroringFetch "g" 10
    (fun n r h => by simp [erroringFetch] at h)).trans (by rfl)

/-- C4 counterexample: the detail text of the timeout outcome is
"Generation timed out after 4 seconds", not the
"operation timed out after 4 seconds" wording the claim states. -/
theorem C4_counterexample :
    (wait_for_generation pendingFetch "g" 4).outcome =
        .timedOut "Generation timed out after 4 seconds" ∧
      (wait_for_generation pendingFetch "g" 4).outcome ≠
        .timedOut "operation timed out after 4 seconds" := by
  have h : (wait_for_generation pendingFetch "g" 4).outcome =
      .timedOut "Generation timed out after 4 seconds" := by
    simp [wait_for_generation, wait_for_generationAux, prependEvents, afterFetch,
      pendingFetch, pendingRecord]
    rfl
  exact ⟨h, by rw [h]; decide⟩

/-- Absorption of a run of transient fetch errors: if the next N fetch calls
error, the call after them returns COMPLETE, and the clock plus the five
seconds slept per error stays inside the budget, the loop reaches the
COMPLETE record and returns it. -/
theorem generationAux_absorbs_errors (fetch : String → Nat → FetchResult) (gid : String)
    (t : Int) (r : Record) (hc : r.status.getD "" = "COMPLETE") :
    ∀ (N elapsed n : Nat), (∀ i, i < N → ∃ e, fetch gid (n + i) = .err e) →
      fetch gid (n + N) = .ok r → (elapsed : Int) + 5 * N < t →
      (wait_for_generationAux fetch gid t elapsed n).outcome = .success r := by
  intro N
  induction N with
  | zero =>
    intro elapsed n _ hok hlt
    have hg : (elapsed : Int) < t := by push_cast at hlt; omega
    rw [Nat.add_zero] at hok
    rw [wait_for_generationAux]
    simp [hg, hok, hc]
  | succ N ih =>
    intro elapsed n herr hok hlt
    obtain ⟨e, he⟩ := herr 0 (Nat.succ_pos N)
    rw [Nat.add_zero] at he
    have hg : (elapsed : Int) < t := by push_cast at hlt; omega
    rw [wait_for_generationAux]
    simp only [hg, he, afterFetch, dif_pos]
    apply ih (elapsed + 5) (n + 1)
    · intro i hi
      obtain ⟨e', he'⟩ := herr (i + 1) (by omega)
      exact ⟨e', by rwa [show n + (i + 1) = n + 1 + i by omega] at he'⟩
    · rwa [show n + (N + 1) = n + 1 + N by omega] at hok
    · push_cast at hlt ⊢; omega

/-- C3: a transient status-fetch error is absorbed: the loop reports it to
the progress sink only, sleeps the 5 second error backoff (longer than the
3 second poll interval) and continues; and if the fetch errors N times and
then returns COMPLETE with 5 N seconds inside the budget, the poller
returns Success with the record (the error is never the final outcome). -/
theorem C3_transient_error_resilience (fetch : String → Nat → FetchResult) (gid : String)
    (t : Int) :
    (∀ (elapsed n : Nat) (e : String), (elapsed : Int) < t → fetch gid n = .err e →
      wait_for_generationAux fetch gid t elapsed n =
        afterFetch [.note ("[red]Error checking status: " ++ e)]
          (wait_for_generationAux fetch gid t (elapsed + 5) (n + 1))) ∧
    (∀ (N : Nat) (r : Record), (∀ i, i < N → ∃ e, fetch gid i = .err e) →
      fetch gid N = .ok r → r.status.getD "" = "COMPLETE" → 5 * (N : Int) < t →
      (wait_for_generation fetch gid t).outcome = .success r) := by
  constructor
  · intro elapsed n e hlt he
    conv_lhs => rw [wait_for_generationAux]
    simp [hlt, he]
  · intro N r herr hok hc hlt
    rw [wait_for_generation]
    simp only [prependEvents]
    apply generationAux_absorbs_errors fetch gid t r hc N 0 0
    · simpa using herr
    · simpa using hok
    · push_cast at hlt ⊢; omega

/-- C3 witness: one connection error then COMPLETE, budget 6 seconds: the
error step reports to the sink, sleeps 5 and continues, and the run returns
Success. -/
theorem C3_witness :
    (wait_for_generationAux errThenCompleteFetch "g" 6 0 0 =
      afterFetch [.note "[red]Error checking status: connection reset"]
        (wait_for_generationAux errThenCompleteFetch "g" 6 5 1)) ∧
    (wait_for_generation errThenCompleteFetch "g" 6).outcome = .success completeRecord :=
  ⟨(C3_transient_error_resilience errThenCompleteFetch "g" 6).1 0 0 "connection reset"
      (by norm_num) rfl,
   (C3_transient_error_resilience errThenCompleteFetch "g" 6).2 1 completeRecord
      (fun i hi => ⟨"connection reset", by
        have h0 : i = 0 := by omega
        subst h0; rfl⟩) rfl rfl (by norm_num)⟩

theorem progressElapseds_nil : progressElapseds [] = [] := rfl

theorem progressElapseds_note (s : String) (tr : List Event) :
    progressElapseds (.note s :: tr) = progressElapseds tr := by
  simp [progressElapseds, Event.elapsedOf]

theorem progressElapseds_progress (e : Nat) (s : String) (tr : List Event) :
    progressElapseds (.progress e s :: tr) = e :: progressElapseds tr := by
  simp [progressElapseds, Event.elapsedOf]

theorem progressElapseds_append (a b : List Event) :
    progressElapseds (a ++ b) = progressElapseds a ++ progressElapseds b := by
  simp [progressElapseds]

/-- Every elapsed value the loop reports from clock value elapsed on is at
least elapsed, and the whole reported sequence is non-decreasing: the loop
reports the current clock, which only moves forward. -/
theorem generationAux_progress_sorted (fetch : String → Nat → FetchResult) (gid : String)
    (t : Int) : ∀ elapsed n : Nat,
    (progressElapseds (wait_for_generationAux fetch gid t elapsed n).trace).Sorted (· ≤ ·) ∧
      ∀ x ∈ progressElapseds (wait_for_generationAux fetch gid t elapsed n).trace,
        elapsed ≤ x := by
  intro elapsed n
  induction elapsed, n using wait_for_generationAux.induct fetch gid t with
  | case1 elapsed n hlt r hok hc =>
    rw [wait_for_generationAux]
    simp [hlt, hok, hc, progressElapseds_note, progressElapseds_nil]
  | case2 elapsed n hlt r hok hc hf ih =>
    rw [wait_for_generationAux]
    simp only [hok]
    rw [dif_pos hlt, if_neg hc, if_pos hf]
    simp only [afterFetch, List.cons_append, List.nil_append, progressElapseds_note]
    refine ⟨ih.1, fun x hx => ?_⟩
    have := ih.2 x hx
    omega
  | case3 elapsed n hlt r hok hc hf ih =>
    rw [wait_for_generationAux]
    simp only [hok]
    rw [dif_pos hlt, if_neg hc, if_neg hf]
    simp only [afterFetch, List.cons_append, List.nil_append, progressElapseds_progress]
    rw [List.sorted_cons]
    refine ⟨⟨fun b hb => ?_, ih.1⟩, fun x hx => ?_⟩
    · have := ih.2 b hb
      omega
    · rcases List.mem_cons.mp hx with h | h
      · omega
      · have := ih.2 x h
        omega
  | case4 elapsed n hlt e he ih =>
    rw [wait_for_generationAux]
    simp only [he]
    rw [dif_pos hlt]
    simp only [afterFetch, List.cons_append, List.nil_append, progressElapseds_note]
    refine ⟨ih.1, fun x hx => ?_⟩
    have := ih.2 x hx
    omega
  | case5 elapsed n hlt =>
    rw [wait_for_generationAux]
    simp [hlt, progressElapseds_note, progressElapseds_nil]

/-- C8: within a single poll invocation the sequence of elapsed-seconds
values reported to the progress sink is non-decreasing. -/
theorem C8_progress_monotone (fetch : String → Nat → FetchResult) (gid : String)
    (t : Int) :
    (progressElapseds (wait_for_generation fetch gid t).trace).Sorted (· ≤ ·) := by
  have h := (generationAux_progress_sorted fetch gid t 0 0).1
  rw [wait_for_generation]
  simpa [prependEvents, progressElapseds_note] using h

theorem resultsAgree_afterFetch (es es' : List Event) {a b : PollResult}
    (h : resultsAgree a b) : resultsAgree (afterFetch es a) (afterFetch es' b) := by
  obtain ⟨h1, h2, h3⟩ := h
  exact ⟨by simpa [afterFetch] using h1, by simp [afterFetch, h2], by simp [afterFetch, h3]⟩

theorem resultsAgree_prependEvents (es es' : List Event) {a b : PollResult}
    (h : resultsAgree a b) : resultsAgree (prependEvents es a) (prependEvents es' b) := by
  obtain ⟨h1, h2, h3⟩ := h
  exact ⟨by simpa [prependEvents] using h1, by simp [prependEvents, h2],
    by simp [prependEvents, h3]⟩

theorem resultsAgree_symm {a b : PollResult} (h : resultsAgree a b) : resultsAgree b a := by
  obtain ⟨h1, h2, h3⟩ := h
  refine ⟨?_, h2.symm, h3.symm⟩
  rcases ha : a.outcome with r | m <;> rcases hb : b.outcome with r' | m' <;>
    simp_all [Outcome.agrees, beq_iff_eq]

theorem resultsAgree_trans {a b c : PollResult} (h : resultsAgree a b)
    (g : resultsAgree b c) : resultsAgree a c := by
  obtain ⟨h1, h2, h3⟩ := h
  obtain ⟨g1, g2, g3⟩ := g
  refine ⟨?_, h2.trans g2, h3.trans g3⟩
  rcases ha : a.outcome with r | m <;> rcases hb : b.outcome with r' | m' <;>
    rcases hc : c.outcome with r'' | m'' <;>
    simp_all [Outcome.agrees, beq_iff_eq]

/-- The generation and motion polling loops, run over the same sequence of
fetch results and the same budget, agree step by step: same outcome shape
and record, same fetch-call count, same virtual time. -/
theorem generation_motion_agree (s : Nat → FetchResult) (gid mid : String) (t : Int) :
    ∀ elapsed n : Nat,
    resultsAgree (wait_for_generationAux (fun _ k => s k) gid t elapsed n)
      (wait_for_motion_generationAux (fun _ k => s k) mid t elapsed n) := by
  intro elapsed n
  induction elapsed, n using wait_for_generationAux.induct (fun _ k => s k) gid t with
  | case1 elapsed n hlt r hok hc =>
    rw [wait_for_generationAux, wait_for_motion_generationAux]
    simp [hlt, hok, hc, resultsAgree, Outcome.agrees]
  | case2 elapsed n hlt r hok hc hf ih =>
    rw [wait_for_generationAux, wait_for_motion_generationAux]
    simp only [hlt, dif_pos, hok, hc, hf, if_neg, if_pos]
    exact resultsAgree_afterFetch _ _ ih
  | case3 elapsed n hlt r hok hc hf ih =>
    rw [wait_for_generationAux, wait_for_motion_generationAux]
    simp only [hlt, dif_pos, hok, hc, hf, if_neg]
    exact resultsAgree_afterFetch _ _ ih
  | case4 elapsed n hlt e he ih =>
    rw [wait_for_generationAux, wait_for_motion_generationAux]
    simp only [hlt, dif_pos, he]
    exact resultsAgree_afterFetch _ _ ih
  | case5 elapsed n hlt =>
    rw [wait_for_generationAux, wait_for_motion_generationAux]
    simp [hlt, resultsAgree, Outcome.agrees]

/-- The generation and variation polling loops, run over the same sequence
of fetch results and the same budget, agree step by step. -/
theorem generation_variation_agree (s : Nat → FetchResult) (gid vid vtype : String)
    (t : Int) : ∀ elapsed n : Nat,
    resultsAgree (wait_for_generationAux (fun _ k => s k) gid t elapsed n)
      (wait_for_variationAux (fun _ _ k => s k) vid vtype t elapsed n) := by
  intro elapsed n
  induction elapsed, n using wait_for_generationAux.induct (fun _ k => s k) gid t with
  | case1 elapsed n hlt r hok hc =>
    rw [wait_for_generationAux, wait_for_variationAux]
    simp [hlt, hok, hc, resultsAgree, Outcome.agrees]
  | case2 elapsed n hlt r hok hc hf ih =>
    rw [wait_for_generationAux, wait_for_variationAux]
    simp only [hlt, dif_pos, hok, hc, hf, if_neg, if_pos]
    exact resultsAgree_afterFetch _ _ ih
  | case3 elapsed n hlt r hok hc hf ih =>
    rw [wait_for_generationAux, wait_for_variationAux]
    simp only [hlt, dif_pos, hok, hc, hf, if_neg]
    exact resultsAgree_afterFetch _ _ ih
  | case4 elapsed n hlt e he ih =>
    rw [wait_for_generationAux, wait_for_variationAux]
    simp only [hlt, dif_pos, he]
    exact resultsAgree_afterFetch _ _ ih
  | case5 elapsed n hlt =>
    rw [wait_for_generationAux, wait_for_variationAux]
    simp [hlt, resultsAgree, Outcome.agrees]

/-- C9: given the same timeout and the same sequence of status-fetch
results, the three wait operations agree pairwise - same record on success
or the timeout exception raised at the same iteration with the same
fetch-call count and virtual time - differing only in which fetch they call,
their label text, and their default timeouts of 120, 300 and 120 seconds. -/
theorem C9_pollers_equivalent (s : Nat → FetchResult) (t : Int)
    (gid mid vid vtype : String) :
    resultsAgree (wait_for_generation (fun _ k => s k) gid t)
        (wait_for_motion_generation (fun _ k => s k) mid t) ∧
      resultsAgree (wait_for_generation (fun _ k => s k) gid t)
        (wait_for_variation (fun _ _ k => s k) vid vtype t) ∧
      resultsAgree (wait_for_motion_generation (fun _ k => s k) mid t)
        (wait_for_variation (fun _ _ k => s k) vid vtype t) ∧
      generation_default_timeout = 120 ∧ motion_default_timeout = 300 ∧
      variation_default_timeout = 120 := by
  rw [wait_for_generation, wait_for_motion_generation, wait_for_variation]
  have hgm := resultsAgree_prependEvents
    [Event.note "[yellow]Waiting for generation..."]
    [Event.note "[yellow]Waiting for video generation..."]
    (generation_motion_agree s gid mid t 0 0)
  have hgv := resultsAgree_prependEvents
    [Event.note "[yellow]Waiting for generation..."]
    [Event.note ("[yellow]Waiting for " ++ vtype ++ " to complete...")]
    (generation_variation_agree s gid vid vtype t 0 0)
  exact ⟨hgm, hgv, resultsAgree_trans (resultsAgree_symm hgm) hgv, rfl, rfl, rfl⟩
